import Mathlib

/-!
Verification of the Twilio webhook signature-validation core of `src/app.py`.

The embedding models bytes as `Nat` values below 256, machine words as `Nat`
reduced modulo `2 ^ 32`, and Python strings as Lean `String`s.  The SHA-1 and
HMAC primitives invoked by the source (`hashlib.sha1`, `hmac.new`) are embedded
from their standard definitions (RFC 3174 and RFC 2104), and `base64.b64encode`
from RFC 4648.
-/

namespace TwilioWebhook

/-- Reduce a natural number to a 32-bit machine word. -/
def w32 (n : Nat) : Nat := n % 4294967296

/-- Rotate the 32-bit word `n` left by `s` bits. -/
def rotl (s n : Nat) : Nat := (n * 2 ^ s + n / 2 ^ (32 - s)) % 4294967296

/-- Big-endian byte serialization of `v` into exactly `k` bytes. -/
def beBytes : Nat → Nat → List Nat
  | 0, _ => []
  | k + 1, v => beBytes k (v / 256) ++ [v % 256]

/-- Group a byte stream into big-endian 32-bit words (discarding a trailing
partial group; inputs are always a multiple of four bytes). -/
def toWords : List Nat → List Nat
  | a :: b :: c :: d :: rest => (((a * 256 + b) * 256 + c) * 256 + d) :: toWords rest
  | _ => []

/-- SHA-1 message padding: append `0x80`, zero bytes up to 56 mod 64, then the
bit length as a 64-bit big-endian integer. -/
def padMsg (msg : List Nat) : List Nat :=
  msg ++ [128] ++ List.replicate ((119 - msg.length % 64) % 64) 0 ++ beBytes 8 (8 * msg.length)

/-- The SHA-1 round function `f_t` of RFC 3174. -/
def sha1F (t b c d : Nat) : Nat :=
  if t < 20 then (b &&& c) ||| ((4294967295 ^^^ b) &&& d)
  else if t < 40 then b ^^^ c ^^^ d
  else if t < 60 then (b &&& c) ||| (b &&& d) ||| (c &&& d)
  else b ^^^ c ^^^ d

/-- The SHA-1 round constants `K_t` of RFC 3174. -/
def sha1K (t : Nat) : Nat :=
  if t < 20 then 0x5A827999
  else if t < 40 then 0x6ED9EBA1
  else if t < 60 then 0x8F1BBCDC
  else 0xCA62C1D6

/-- Extend a message schedule by `k` further words:
`W t = rotl 1 (W (t-3) ^^^ W (t-8) ^^^ W (t-14) ^^^ W (t-16))`. -/
def sched : List Nat → Nat → List Nat
  | ws, 0 => ws
  | ws, k + 1 =>
    sched (ws ++ [rotl 1 (ws.getD (ws.length - 3) 0 ^^^ ws.getD (ws.length - 8) 0 ^^^
      ws.getD (ws.length - 14) 0 ^^^ ws.getD (ws.length - 16) 0)]) k

/-- The 80 SHA-1 rounds over one block, consuming the message schedule. -/
def sha1Rounds : Nat → Nat × Nat × Nat × Nat × Nat → List Nat → Nat × Nat × Nat × Nat × Nat
  | _, st, [] => st
  | t, (a, b, c, d, e), w :: ws =>
    sha1Rounds (t + 1) (w32 (rotl 5 a + sha1F t b c d + e + w + sha1K t), a, rotl 30 b, c, d) ws

/-- Process one 16-word block, updating the five-word chaining state. -/
def sha1Block (st : Nat × Nat × Nat × Nat × Nat) (ws : List Nat) : Nat × Nat × Nat × Nat × Nat :=
  let r := sha1Rounds 0 st (sched ws 64)
  (w32 (st.1 + r.1), w32 (st.2.1 + r.2.1), w32 (st.2.2.1 + r.2.2.1),
    w32 (st.2.2.2.1 + r.2.2.2.1), w32 (st.2.2.2.2 + r.2.2.2.2))

/-- Fold the block function over a padded message given as 32-bit words. -/
def sha1Blocks (st : Nat × Nat × Nat × Nat × Nat) :
    List Nat → Nat × Nat × Nat × Nat × Nat
  | w0 :: w1 :: w2 :: w3 :: w4 :: w5 :: w6 :: w7 :: w8 :: w9 :: w10 :: w11 :: w12 :: w13 ::
      w14 :: w15 :: rest =>
    sha1Blocks (sha1Block st [w0, w1, w2, w3, w4, w5, w6, w7, w8, w9, w10, w11, w12, w13, w14, w15])
      rest
  | _ => st

/-- SHA-1 of a byte stream, as the 20-byte digest (RFC 3174; the primitive the
source obtains from `hashlib.sha1`). -/
def sha1 (msg : List Nat) : List Nat :=
  let st := sha1Blocks (0x67452301, 0xEFCDAB89, 0x98BADCFE, 0x10325476, 0xC3D2E1F0)
    (toWords (padMsg msg))
  beBytes 4 st.1 ++ beBytes 4 st.2.1 ++ beBytes 4 st.2.2.1 ++
    beBytes 4 st.2.2.2.1 ++ beBytes 4 st.2.2.2.2

/-- HMAC-SHA1 (RFC 2104, block size 64; the construction the source obtains
from `hmac.new(key, msg, sha1)`). -/
def hmacSha1 (key msg : List Nat) : List Nat :=
  let k0 := if 64 < key.length then sha1 key else key
  let kp := k0 ++ List.replicate (64 - k0.length) 0
  sha1 (kp.map (fun b => b ^^^ 92) ++ sha1 (kp.map (fun b => b ^^^ 54) ++ msg))

/-- The standard base64 alphabet (RFC 4648). -/
def b64Table : List Char :=
  "ABCDEFGHIJKLMNOPQRSTUVWXYZabcdefghijklmnopqrstuvwxyz0123456789+/".data

/-- The base64 character for a 6-bit group. -/
def b64Char (n : Nat) : Char := b64Table.getD n 'A'

/-- Padded base64 encoding of a byte stream (`base64.b64encode`). -/
def b64Encode : List Nat → List Char
  | [] => []
  | [a] => [b64Char (a / 4), b64Char (a % 4 * 16), '=', '=']
  | [a, b] => [b64Char (a / 4), b64Char (a % 4 * 16 + b / 16), b64Char (b % 16 * 4), '=']
  | a :: b :: c :: rest =>
    b64Char (a / 4) :: b64Char (a % 4 * 16 + b / 16) :: b64Char (b % 16 * 4 + c / 64) ::
      b64Char (c % 64) :: b64Encode rest

/-- UTF-8 encoding of one Unicode code point. -/
def utf8Char (c : Char) : List Nat :=
  let n := c.toNat
  if n < 128 then [n]
  else if n < 2048 then [192 + n / 64, 128 + n % 64]
  else if n < 65536 then [224 + n / 4096, 128 + n / 64 % 64, 128 + n % 64]
  else [240 + n / 262144, 128 + n / 4096 % 64, 128 + n / 64 % 64, 128 + n % 64]

/-- UTF-8 bytes of a string (`str.encode("utf-8")` / `bytes(s, "UTF-8")`). -/
def utf8Str (s : String) : List Nat := (s.data.map utf8Char).flatten

/-- The ASCII whitespace characters removed by Python's `str.strip()` (the
strings it is applied to in the source are pure ASCII). -/
def isPySpace (c : Char) : Bool :=
  c = ' ' || c = '\t' || c = '\n' || c = '\x0d' || c = '\x0b' || c = '\x0c'

/-- Python `str.strip()`: drop leading and trailing whitespace. -/
def pyStrip (l : List Char) : List Char :=
  ((l.dropWhile isPySpace).reverse.dropWhile isPySpace).reverse

/-- The signer of `src/app.py` lines 98–107: HMAC-SHA1 over the UTF-8 bytes of
the canonical string keyed by the UTF-8 bytes of the auth token, base64-encoded,
decoded back to text and passed through `strip()`. -/
def sign (canonical key : String) : String :=
  String.mk (pyStrip (b64Encode (hmacSha1 (utf8Str key) (utf8Str canonical))))

/-- `re.sub('http', 'https', url)` at `src/app.py` line 85: replace every
non-overlapping occurrence of the literal substring `http` by `https`,
scanning left to right. -/
def subHttp : List Char → List Char
  | 'h' :: 't' :: 't' :: 'p' :: rest => 'h' :: 't' :: 't' :: 'p' :: 's' :: subHttp rest
  | c :: rest => c :: subHttp rest
  | [] => []

/-- URL normalization performed by the `/twiml` route (line 85). -/
def normalizeUrl (url : String) : String := String.mk (subHttp url.data)

/-- Python tuple comparison on `(name, value)` pairs, as used by
`sorted(request.form.items())`: lexicographic, name first. -/
def pairLe (a b : String × String) : Prop := a.1 < b.1 ∨ (a.1 = b.1 ∧ a.2 ≤ b.2)

instance : DecidableRel pairLe := fun a b => by unfold pairLe; infer_instance

/-- Ordering of form fields by field name alone (the spec's "sorted by field
name using case-sensitive byte ordering"). -/
def keyLe (a b : String × String) : Prop := a.1 ≤ b.1

instance : DecidableRel keyLe := fun a b => by unfold keyLe; infer_instance

/-- Python's `sorted` on the form items: the unique `pairLe`-sorted permutation. -/
def pySorted (l : List (String × String)) : List (String × String) :=
  List.insertionSort pairLe l

/-- The canonical string built at `src/app.py` lines 85–93: the normalized URL
with each sorted field's name and value appended with no delimiter. -/
def canonicalize (url : String) (form : List (String × String)) : String :=
  (pySorted form).foldl (fun acc kv => acc ++ kv.1 ++ kv.2) (normalizeUrl url)

/-- One inbound HTTP request as seen by the validation gate: the full request
URL, the form-field mapping, and the optional `X-Twilio-Signature` header. -/
structure IncomingRequest where
  url : String
  form : List (String × String)
  signatureHeader : Option String
deriving DecidableEq

/-- The four validation outcomes of the gate. -/
inductive ValidationOutcome
  | Accepted
  | RejectedNoSignatureHeader
  | RejectedNoBody
  | RejectedMismatch
deriving DecidableEq

/-- The decision procedure of the `/twiml` route (lines 68–115), abstracted
over the signer so that non-invocation of the signer is expressible:
missing header → 418, empty form → 400, signature comparison → accept or 403. -/
def validateWith (signer : String → String → String) (req : IncomingRequest)
    (key : String) : ValidationOutcome :=
  match req.signatureHeader with
  | none => ValidationOutcome.RejectedNoSignatureHeader
  | some sig =>
    if req.form = [] then ValidationOutcome.RejectedNoBody
    else if signer (canonicalize req.url req.form) key = sig then ValidationOutcome.Accepted
    else ValidationOutcome.RejectedMismatch

/-- The `/twiml` validation gate with the real signer. -/
def validate (req : IncomingRequest) (key : String) : ValidationOutcome :=
  validateWith sign req key

/-- The `/twiml` route around an arbitrary downstream handler: the handler's
response is produced only on `Accepted`; rejections return the route's fixed
response bodies and status codes. -/
def gate (handler : IncomingRequest → String × Nat) (req : IncomingRequest)
    (key : String) : String × Nat :=
  match validate req key with
  | ValidationOutcome.Accepted => handler req
  | ValidationOutcome.RejectedNoSignatureHeader =>
    ("No X-Twilio-Signature. This request likely did not originate from Twilio.", 418)
  | ValidationOutcome.RejectedNoBody => ("Bad Request - no form params", 400)
  | ValidationOutcome.RejectedMismatch => ("Signature does not match", 403)

/-- `'https://' + request.url.lstrip('http://')` at `src/app.py` line 57:
`lstrip` removes leading characters drawn from the set of the argument. -/
def decoratorUrl (url : String) : String :=
  "https://" ++ String.mk (url.data.dropWhile (fun c => ['h', 't', 'p', ':', '/'].contains c))

/-- Modelled from the spec: the twilio helper library's `RequestValidator.validate`
used at `src/app.py` line 62 is not part of `src/`.  Per the spec's
Canonicalizer, Signer and Comparator contracts (sections 4.1–4.3) it appends
the sorted form fields to the given URL with no delimiter, signs the result
with HMAC-SHA1 and padded base64, and compares with the claimed signature for
exact equality. -/
def requestValidatorValidate (key url : String) (params : List (String × String))
    (signature : String) : Bool :=
  decide (sign ((pySorted params).foldl (fun acc kv => acc ++ kv.1 ++ kv.2) url) key = signature)

/-- The decision procedure of the `validate_twilio_request` decorator
(lines 52–66): a missing or empty header → 500, a failed library validation
→ 403, otherwise the wrapped handler runs. -/
def decoratorValidate (req : IncomingRequest) (key : String) : ValidationOutcome :=
  match req.signatureHeader with
  | none => ValidationOutcome.RejectedNoSignatureHeader
  | some sig =>
    if sig = "" then ValidationOutcome.RejectedNoSignatureHeader
    else if requestValidatorValidate key (decoratorUrl req.url) req.form sig then
      ValidationOutcome.Accepted
    else ValidationOutcome.RejectedMismatch

/-- Concatenation of a list of strings with no separator. -/
def joinAll : List String → String
  | [] => ""
  | s :: rest => s ++ joinAll rest

/-- A request exhibiting the disagreement between the two validation
implementations: an empty form-field set with a claimed signature that matches
the decorator's URL-only canonicalization. -/
def c9req : IncomingRequest :=
  ⟨"http://x", [], some (sign "https://x" "secret")⟩

/-- Cost model of the short-circuiting string comparison at `src/app.py`
line 111 (`diy_signature != twil_sig`): the number of character comparisons an
early-exit equality scan performs before returning. -/
def cmpSteps : List Char → List Char → Nat
  | a :: xs, b :: ys => if a = b then 1 + cmpSteps xs ys else 1
  | _, _ => 0

end TwilioWebhook



namespace TwilioWebhook

theorem strAppend_assoc (a b c : String) : a ++ b ++ c = a ++ (b ++ c) :=
  String.ext (by simp [List.append_assoc])

theorem foldl_concat_pairs : ∀ (l : List (String × String)) (s : String),
    l.foldl (fun acc kv => acc ++ kv.1 ++ kv.2) s = s ++ joinAll (l.map fun kv => kv.1 ++ kv.2)
  | [], s => by simp [joinAll]
  | kv :: rest, s => by
    simp only [List.foldl_cons, List.map_cons, joinAll]
    rw [foldl_concat_pairs rest (s ++ kv.1 ++ kv.2)]
    simp [strAppend_assoc]

theorem beBytes_length : ∀ (k v : Nat), (beBytes k v).length = k
  | 0, _ => rfl
  | k + 1, v => by simp [beBytes, beBytes_length k]

theorem sha1_length (msg : List Nat) : (sha1 msg).length = 20 := by
  simp [sha1, beBytes_length]

theorem hmacSha1_length (key msg : List Nat) : (hmacSha1 key msg).length = 20 := by
  simp [hmacSha1, sha1_length]

theorem b64Encode_length : ∀ l : List Nat, (b64Encode l).length = (l.length + 2) / 3 * 4
  | [] => rfl
  | [_] => by simp [b64Encode]
  | [_, _] => by simp [b64Encode]
  | _ :: _ :: _ :: rest => by
    simp [b64Encode, b64Encode_length rest]
    omega

theorem getD_mem_or : ∀ (l : List Char) (n : Nat) (d : Char), l.getD n d ∈ l ∨ l.getD n d = d
  | [], _, _ => Or.inr (List.getD_nil)
  | c :: rest, 0, d => Or.inl (List.getD_cons_zero ▸ List.mem_cons_self c rest)
  | c :: rest, n + 1, d => by
    rw [List.getD_cons_succ]
    rcases getD_mem_or rest n d with h | h
    · exact Or.inl (List.mem_cons_of_mem c h)
    · exact Or.inr h

theorem b64Char_mem (n : Nat) : b64Char n ∈ b64Table := by
  rcases getD_mem_or b64Table n 'A' with h | h
  · exact h
  · show b64Table.getD n 'A' ∈ b64Table
    rw [h]
    decide

theorem mem_b64Encode : ∀ (l : List Nat) (c : Char), c ∈ b64Encode l → c ∈ b64Table ∨ c = '='
  | [], c, h => absurd h (List.not_mem_nil c)
  | [a], c, h => by
    simp [b64Encode] at h
    rcases h with h | h | h <;>
      first
        | exact Or.inl (h ▸ b64Char_mem _)
        | exact Or.inr h
  | [a, b], c, h => by
    simp [b64Encode] at h
    rcases h with h | h | h | h <;>
      first
        | exact Or.inl (h ▸ b64Char_mem _)
        | exact Or.inr h
  | a :: b :: d :: rest, c, h => by
    simp only [b64Encode, List.mem_cons] at h
    rcases h with h | h | h | h | h
    · exact Or.inl (h ▸ b64Char_mem _)
    · exact Or.inl (h ▸ b64Char_mem _)
    · exact Or.inl (h ▸ b64Char_mem _)
    · exact Or.inl (h ▸ b64Char_mem _)
    · exact mem_b64Encode rest c h

theorem b64_char_not_space {c : Char} (h : c ∈ b64Table ∨ c = '=') : isPySpace c = false := by
  rcases h with h | h
  · exact (by decide : ∀ x ∈ b64Table, isPySpace x = false) c h
  · subst h; decide

theorem b64_char_ascii {c : Char} (h : c ∈ b64Table ∨ c = '=') : c.toNat < 128 := by
  rcases h with h | h
  · exact (by decide : ∀ x ∈ b64Table, x.toNat < 128) c h
  · subst h; decide

theorem dropWhile_eq_of_forall (p : Char → Bool) :
    ∀ l : List Char, (∀ c ∈ l, p c = false) → l.dropWhile p = l
  | [], _ => rfl
  | c :: rest, h => by
    simp [List.dropWhile_cons, h c (List.mem_cons_self c rest)]

theorem pyStrip_eq_of_forall (l : List Char) (h : ∀ c ∈ l, isPySpace c = false) :
    pyStrip l = l := by
  unfold pyStrip
  rw [dropWhile_eq_of_forall _ l h,
    dropWhile_eq_of_forall _ l.reverse (fun c hc => h c (List.mem_reverse.mp hc)),
    List.reverse_reverse]

theorem sign_data (canonical key : String) :
    (sign canonical key).data = b64Encode (hmacSha1 (utf8Str key) (utf8Str canonical)) := by
  have h : ∀ c ∈ b64Encode (hmacSha1 (utf8Str key) (utf8Str canonical)), isPySpace c = false :=
    fun c hc => b64_char_not_space (mem_b64Encode _ c hc)
  simp [sign, pyStrip_eq_of_forall _ h]

theorem sign_length (canonical key : String) : (sign canonical key).length = 28 := by
  have h : (sign canonical key).length = (sign canonical key).data.length := rfl
  rw [h, sign_data, b64Encode_length, hmacSha1_length]

end TwilioWebhook

namespace TwilioWebhook

instance : IsTotal (String × String) pairLe := by
  constructor
  intro a b
  rcases lt_trichotomy a.1 b.1 with h | h | h
  · exact Or.inl (Or.inl h)
  · rcases le_total a.2 b.2 with h2 | h2
    · exact Or.inl (Or.inr ⟨h, h2⟩)
    · exact Or.inr (Or.inr ⟨h.symm, h2⟩)
  · exact Or.inr (Or.inl h)

instance : IsTrans (String × String) pairLe := by
  constructor
  intro a b c hab hbc
  rcases hab with h1 | ⟨h1, h1v⟩ <;> rcases hbc with h2 | ⟨h2, h2v⟩
  · exact Or.inl (lt_trans h1 h2)
  · exact Or.inl (h2 ▸ h1)
  · exact Or.inl (h1 ▸ h2)
  · exact Or.inr ⟨h1.trans h2, le_trans h1v h2v⟩

instance : IsAntisymm (String × String) pairLe := by
  constructor
  rintro ⟨a1, a2⟩ ⟨b1, b2⟩ hab hba
  rcases hab with h1 | ⟨h1, h1v⟩ <;> rcases hba with h2 | ⟨h2, h2v⟩
  · exact absurd h2 (lt_asymm h1)
  · exact absurd h1 (by simp_all)
  · exact absurd h2 (by simp_all)
  · have h3 : a2 = b2 := le_antisymm h1v h2v
    simp_all

instance : IsTotal (String × String) keyLe :=
  ⟨fun a b => le_total a.1 b.1⟩

instance : IsTrans (String × String) keyLe :=
  ⟨fun _ _ _ h1 h2 => le_trans h1 h2⟩

theorem pySorted_eq_of_perm {l₁ l₂ : List (String × String)} (h : l₁.Perm l₂) :
    pySorted l₁ = pySorted l₂ :=
  List.eq_of_perm_of_sorted
    ((List.perm_insertionSort pairLe l₁).trans (h.trans (List.perm_insertionSort pairLe l₂).symm))
    (List.sorted_insertionSort pairLe l₁) (List.sorted_insertionSort pairLe l₂)

theorem pySorted_eq_keySort {form : List (String × String)}
    (h : (form.map Prod.fst).Nodup) :
    pySorted form = List.insertionSort keyLe form := by
  apply List.eq_of_perm_of_sorted
    ((List.perm_insertionSort pairLe form).trans (List.perm_insertionSort keyLe form).symm)
    (List.sorted_insertionSort pairLe form)
  have hperm : List.insertionSort keyLe form |>.Perm form := List.perm_insertionSort keyLe form
  have hnd : ((List.insertionSort keyLe form).map Prod.fst).Nodup :=
    (hperm.map Prod.fst).symm.nodup h
  have hpw : List.Pairwise (fun a b : String × String => a.1 ≠ b.1)
      (List.insertionSort keyLe form) := List.pairwise_map.mp hnd
  have hs : List.Sorted keyLe (List.insertionSort keyLe form) :=
    List.sorted_insertionSort keyLe form
  exact (hs.and hpw).imp fun hx => Or.inl (lt_of_le_of_ne hx.1 hx.2)

end TwilioWebhook

namespace TwilioWebhook

/-- C1: the validation gate decides in order — absent claimed-signature header
yields `RejectedNoSignatureHeader`; otherwise an empty form-field set yields
`RejectedNoBody`; otherwise the request is canonicalized, signed with the key
and compared to the claimed signature, yielding `Accepted` exactly on equality
and `RejectedMismatch` otherwise — and the downstream handler runs only on
`Accepted`. -/
theorem gate_decision_order (req : IncomingRequest) (key : String) :
    (req.signatureHeader = none →
      validate req key = ValidationOutcome.RejectedNoSignatureHeader) ∧
    (∀ s, req.signatureHeader = some s → req.form = [] →
      validate req key = ValidationOutcome.RejectedNoBody) ∧
    (∀ s, req.signatureHeader = some s → req.form ≠ [] →
      validate req key =
        if sign (canonicalize req.url req.form) key = s then ValidationOutcome.Accepted
        else ValidationOutcome.RejectedMismatch) ∧
    (validate req key ≠ ValidationOutcome.Accepted →
      ∀ h₁ h₂ : IncomingRequest → String × Nat, gate h₁ req key = gate h₂ req key) := by
  refine ⟨?_, ?_, ?_, ?_⟩
  · intro h
    simp [validate, validateWith, h]
  · intro s hs hform
    simp [validate, validateWith, hs, hform]
  · intro s hs hform
    simp [validate, validateWith, hs, hform]
  · intro hne h₁ h₂
    unfold gate
    cases hv : validate req key
    · exact absurd hv hne
    · rfl
    · rfl
    · rfl

theorem gate_decision_order_check :
    validate ⟨"http://e", [("A", "1")], none⟩ "k" =
      ValidationOutcome.RejectedNoSignatureHeader :=
  (gate_decision_order ⟨"http://e", [("A", "1")], none⟩ "k").1 rfl

/-- C4: a request carrying a claimed-signature header but zero form fields is
rejected with `RejectedNoBody` under any signer whatsoever — the HMAC signer is
never invoked on such a request. -/
theorem empty_body_never_signed (signer : String → String → String)
    (req : IncomingRequest) (key s : String)
    (hs : req.signatureHeader = some s) (hform : req.form = []) :
    validateWith signer req key = ValidationOutcome.RejectedNoBody ∧
    validate req key = ValidationOutcome.RejectedNoBody := by
  constructor
  · simp [validateWith, hs, hform]
  · simp [validate, validateWith, hs, hform]

theorem empty_body_never_signed_check :
    validateWith (fun _ _ => "") ⟨"http://e", [], some "x"⟩ "k" =
      ValidationOutcome.RejectedNoBody ∧
    validate ⟨"http://e", [], some "x"⟩ "k" = ValidationOutcome.RejectedNoBody :=
  empty_body_never_signed (fun _ _ => "") ⟨"http://e", [], some "x"⟩ "k" "x" rfl rfl

/-- C5: for every canonical string and non-empty key, the signer's output is
exactly the padded base64 encoding of the 160-bit (20-byte) HMAC-SHA1 digest of
the UTF-8 bytes of the canonical string keyed by the UTF-8 bytes of the key,
and that output is pure ASCII. -/
theorem signer_is_hmac_sha1_base64 (canonical key : String) (hkey : key ≠ "") :
    (hmacSha1 (utf8Str key) (utf8Str canonical)).length = 20 ∧
    sign canonical key =
      String.mk (b64Encode (hmacSha1 (utf8Str key) (utf8Str canonical))) ∧
    ∀ c ∈ (sign canonical key).data, c.toNat < 128 := by
  refine ⟨hmacSha1_length _ _, String.ext (sign_data canonical key), ?_⟩
  intro c hc
  rw [sign_data] at hc
  exact b64_char_ascii (mem_b64Encode _ c hc)

theorem signer_is_hmac_sha1_base64_check :
    ("k" : String) ≠ "" ∧
    ((hmacSha1 (utf8Str "k") (utf8Str "m")).length = 20 ∧
      sign "m" "k" = String.mk (b64Encode (hmacSha1 (utf8Str "k") (utf8Str "m"))) ∧
      ∀ c ∈ (sign "m" "k").data, c.toNat < 128) :=
  ⟨by decide, signer_is_hmac_sha1_base64 "m" "k" (by decide)⟩

/-- C10: for every canonical string and non-empty key, the base64-encoded
signature the gate compares is exactly 28 ASCII characters, none of them
whitespace, so the trailing `strip()` is the identity and the compared value is
the raw base64 encoding of the HMAC digest. -/
theorem encoded_signature_strip_identity (canonical key : String) (hkey : key ≠ "") :
    (b64Encode (hmacSha1 (utf8Str key) (utf8Str canonical))).length = 28 ∧
    (∀ c ∈ b64Encode (hmacSha1 (utf8Str key) (utf8Str canonical)),
      isPySpace c = false ∧ c.toNat < 128) ∧
    pyStrip (b64Encode (hmacSha1 (utf8Str key) (utf8Str canonical))) =
      b64Encode (hmacSha1 (utf8Str key) (utf8Str canonical)) ∧
    (sign canonical key).data = b64Encode (hmacSha1 (utf8Str key) (utf8Str canonical)) := by
  refine ⟨?_, ?_, ?_, sign_data canonical key⟩
  · rw [b64Encode_length, hmacSha1_length]
  · intro c hc
    exact ⟨b64_char_not_space (mem_b64Encode _ c hc), b64_char_ascii (mem_b64Encode _ c hc)⟩
  · exact pyStrip_eq_of_forall _ fun c hc => b64_char_not_space (mem_b64Encode _ c hc)

theorem encoded_signature_strip_identity_check :
    ("k" : String) ≠ "" ∧
    ((b64Encode (hmacSha1 (utf8Str "k") (utf8Str "m"))).length = 28 ∧
      (∀ c ∈ b64Encode (hmacSha1 (utf8Str "k") (utf8Str "m")),
        isPySpace c = false ∧ c.toNat < 128) ∧
      pyStrip (b64Encode (hmacSha1 (utf8Str "k") (utf8Str "m"))) =
        b64Encode (hmacSha1 (utf8Str "k") (utf8Str "m")) ∧
      (sign "m" "k").data = b64Encode (hmacSha1 (utf8Str "k") (utf8Str "m"))) :=
  ⟨by decide, encoded_signature_strip_identity "m" "k" (by decide)⟩

end TwilioWebhook

namespace TwilioWebhook

/-- C6: for a form-field mapping with distinct field names, the canonical
string is the scheme-normalized URL followed by the concatenation, over fields
sorted by field name in case-sensitive ascending order, of each name
immediately followed by its value, with no separator and with names and values
used exactly as received. -/
theorem canonical_string_sorted_concat (url : String) (form : List (String × String))
    (h : (form.map Prod.fst).Nodup) :
    canonicalize url form =
      normalizeUrl url ++
        joinAll ((List.insertionSort keyLe form).map fun kv => kv.1 ++ kv.2) := by
  rw [canonicalize, pySorted_eq_keySort h, foldl_concat_pairs]

theorem canonical_string_sorted_concat_check :
    (([("b", "2"), ("a", "1")] : List (String × String)).map Prod.fst).Nodup ∧
    canonicalize "http://e" [("b", "2"), ("a", "1")] =
      normalizeUrl "http://e" ++
        joinAll ((List.insertionSort keyLe [("b", "2"), ("a", "1")]).map
          fun kv => kv.1 ++ kv.2) :=
  ⟨by decide, canonical_string_sorted_concat "http://e" [("b", "2"), ("a", "1")] (by decide)⟩

/-- C7: two requests with the same URL, the same claimed signature and the same
multiset of form fields in different wire orders produce the same canonical
string and the same validation outcome. -/
theorem field_order_invariance (url key : String) (hdr : Option String)
    (form₁ form₂ : List (String × String)) (h : form₁.Perm form₂) :
    canonicalize url form₁ = canonicalize url form₂ ∧
    validate ⟨url, form₁, hdr⟩ key = validate ⟨url, form₂, hdr⟩ key := by
  have hcanon : canonicalize url form₁ = canonicalize url form₂ := by
    rw [canonicalize, canonicalize, pySorted_eq_of_perm h]
  refine ⟨hcanon, ?_⟩
  unfold validate validateWith
  cases hdr with
  | none => rfl
  | some s =>
    simp only
    by_cases h1 : form₁ = []
    · subst h1
      rw [h.symm.eq_nil]
    · have h2 : form₂ ≠ [] := fun he => h1 (he ▸ h).eq_nil
      rw [if_neg h1, if_neg h2, hcanon]

theorem field_order_invariance_check :
    ([("b", "2"), ("a", "1")] : List (String × String)).Perm [("a", "1"), ("b", "2")] ∧
    canonicalize "http://e" [("b", "2"), ("a", "1")] =
      canonicalize "http://e" [("a", "1"), ("b", "2")] :=
  ⟨by decide,
    (field_order_invariance "http://e" "k" none [("b", "2"), ("a", "1")]
      [("a", "1"), ("b", "2")] (by decide)).1⟩

end TwilioWebhook

namespace TwilioWebhook

/-- C2 (failing input): on the golden vector — URL `https://example.com/hook`
and single field `Name=value` — the code's canonicalizer produces
`httpss://example.com/hookNamevalue`, not the specified
`https://example.com/hookNamevalue`: `re.sub('http', 'https', url)` also
rewrites the `http` inside an already-secure `https` scheme. -/
theorem golden_vector_canonical_mismatch :
    canonicalize "https://example.com/hook" [("Name", "value")] =
      "httpss://example.com/hookNamevalue" ∧
    canonicalize "https://example.com/hook" [("Name", "value")] ≠
      "https://example.com/hookNamevalue" := by
  constructor
  · decide
  · decide

/-- C3 (failing input): the code's URL normalization turns an `http` scheme
into `https` as intended, but mangles an already-`https` scheme into `httpss`
and rewrites `http` occurrences in the query string as well, so it does not
leave the rest of the URL unchanged. -/
theorem scheme_normalization_mangles_https :
    normalizeUrl "http://example.com/hook" = "https://example.com/hook" ∧
    normalizeUrl "https://example.com/hook" = "httpss://example.com/hook" ∧
    normalizeUrl "https://example.com/hook" ≠ "https://example.com/hook" ∧
    normalizeUrl "http://example.com/a?u=http" = "https://example.com/a?u=https" := by
  refine ⟨by decide, by decide, by decide, by decide⟩

/-- C8 (failing input): the comparison the `/twiml` route performs
(`diy_signature != twil_sig`) short-circuits at the first differing character:
for two equal-length mismatching claimed signatures, the early-exit scan does 1
character comparison when the first character differs and 4 when only the last
differs, so its running time grows with the length of the matching prefix. -/
theorem comparator_steps_depend_on_prefix :
    cmpSteps "abcd".data "Xbcd".data = 1 ∧
    cmpSteps "abcd".data "abcX".data = 4 ∧
    ("abcd" : String) ≠ "Xbcd" ∧ ("abcd" : String) ≠ "abcX" ∧
    "Xbcd".data.length = "abcX".data.length := by
  refine ⟨by decide, by decide, by decide, by decide, by decide⟩

/-- C9 (counterexample): the inline `/twiml` gate and the
`validate_twilio_request` decorator disagree — on a request with zero form
fields whose claimed signature matches the URL-only canonical string, the
inline gate rejects with `RejectedNoBody` while the decorator accepts. -/
theorem inline_decorator_disagree :
    validate c9req "secret" = ValidationOutcome.RejectedNoBody ∧
    decoratorValidate c9req "secret" = ValidationOutcome.Accepted ∧
    validate c9req "secret" ≠ decoratorValidate c9req "secret" := by
  have h1 : validate c9req "secret" = ValidationOutcome.RejectedNoBody := rfl
  have hne : sign "https://x" "secret" ≠ "" := by
    intro h
    have hl := congrArg String.length h
    rw [sign_length] at hl
    exact absurd hl (by decide)
  have hurl :
      (pySorted ([] : List (String × String))).foldl
        (fun acc kv => acc ++ kv.1 ++ kv.2) (decoratorUrl "http://x") = "https://x" := rfl
  have hrv : requestValidatorValidate "secret" (decoratorUrl "http://x") []
      (sign "https://x" "secret") = true := by
    unfold requestValidatorValidate
    rw [hurl]
    exact decide_eq_true rfl
  have h2 : decoratorValidate c9req "secret" = ValidationOutcome.Accepted := by
    show (if sign "https://x" "secret" = "" then ValidationOutcome.RejectedNoSignatureHeader
      else if requestValidatorValidate "secret" (decoratorUrl "http://x") []
          (sign "https://x" "secret") then ValidationOutcome.Accepted
      else ValidationOutcome.RejectedMismatch) = ValidationOutcome.Accepted
    rw [if_neg hne, hrv]
    rfl
  exact ⟨h1, h2, by rw [h1, h2]; intro hc; cases hc⟩

/-- C9 (amended): the two implementations agree that a request without a
claimed-signature header is rejected for the missing header; beyond that they
are not equivalent (see `inline_decorator_disagree`). -/
theorem missing_header_agreement (req : IncomingRequest) (key : String)
    (h : req.signatureHeader = none) :
    validate req key = ValidationOutcome.RejectedNoSignatureHeader ∧
    decoratorValidate req key = ValidationOutcome.RejectedNoSignatureHeader := by
  constructor
  · simp [validate, validateWith, h]
  · simp [decoratorValidate, h]

theorem missing_header_agreement_check :
    validate ⟨"http://e", [("A", "1")], none⟩ "k" =
      ValidationOutcome.RejectedNoSignatureHeader ∧
    decoratorValidate ⟨"http://e", [("A", "1")], none⟩ "k" =
      ValidationOutcome.RejectedNoSignatureHeader :=
  missing_header_agreement ⟨"http://e", [("A", "1")], none⟩ "k" rfl

end TwilioWebhook
